import Mathlib

/-!
# gocurse: the `curses` binding layer

A shallow embedding of `src/curses/curses.go`.  The package is a call-through
layer over the native curses library, so the native library is an oracle: a
transition function on an arbitrary native state that answers every native call
with a result.  Each exported Go function becomes a Lean function that threads a
`World` (the native state, the package variable `Stdwin`, and the log of native
calls made so far) and returns what the Go function returns.
-/

namespace curses

/-! ## Machine integers and conversions -/

/-- The value of a signed machine integer of `bits` bits holding the low `bits`
bits of `v` (a Go or C integer conversion to a signed type). -/
def toSigned (bits : Nat) (v : Int) : Int :=
  (v + 2 ^ (bits - 1)) % 2 ^ bits - 2 ^ (bits - 1)

/-- The value of an unsigned machine integer of `bits` bits holding the low
`bits` bits of `v`. -/
def toUnsigned (bits : Nat) (v : Int) : Nat :=
  (v % 2 ^ bits).toNat

/-- The conversion `C.int(v)`: a 32-bit signed integer. -/
def C.int (v : Int) : Int := toSigned 32 v

/-- The conversion `C.short(v)`: a 16-bit signed integer. -/
def C.short (v : Int) : Int := toSigned 16 v

/-- The conversion `C.chtype(v)`: the native unsigned cell type, which
`<curses.h>` declares as a 32-bit unsigned integer. -/
def C.chtype (v : Int) : Nat := toUnsigned 32 v

/-- The conversion `int32(v)`. -/
def int32 (v : Int) : Int := toSigned 32 v

/-- A Go string is a sequence of bytes; `len` is its number of bytes and
indexing yields a byte. -/
abbrev GoString := List (Fin 256)

/-- A `*Window` (and every native `WINDOW*`) is an address; address 0 is the
null pointer. -/
abbrev WindowPtr := Int

/-- The Go `nil` pointer. -/
def nil : WindowPtr := 0

/-! ## Data model -/

/-- The `CursesError` struct. -/
structure CursesError where
  message : String
deriving DecidableEq, Repr

/-- The method `func (ce CursesError) Error() string`. -/
def CursesError.Error (ce : CursesError) : String := ce.message

/-- Cursor option `CURS_HIDE` (`iota` = 0). -/
def CURS_HIDE : Int := 0
/-- Cursor option `CURS_NORM` (`iota` = 1). -/
def CURS_NORM : Int := 1
/-- Cursor option `CURS_HIGH` (`iota` = 2). -/
def CURS_HIGH : Int := 2

/-- Modelled from the spec: the package constant `OK`, which `curses.go` uses
but which is declared in a file of the package that is not under `src/`.  It is
the native success status, 0 in `<curses.h>`. -/
def OK : Int := 0

/-- Modelled from the spec: the package constant `ERR`, which `curses.go` uses
but which is declared in a file of the package that is not under `src/`.  It is
the native failure sentinel, -1 in `<curses.h>`. -/
def ERR : Int := -1

/-- A native call together with the arguments it receives (already converted to
their C types). -/
inductive Call where
  | initscr
  | newwin (rows cols starty startx : Int)
  | delwin (win : WindowPtr)
  | subwin (win : WindowPtr) (rows cols starty startx : Int)
  | derwin (win : WindowPtr) (rows cols starty startx : Int)
  | has_colors
  | start_color
  | init_pair (pair fg bg : Int)
  | COLOR_PAIR (n : Int)
  | echo
  | noecho
  | doupdate
  | curs_set (visibility : Int)
  | nocbreak
  | cbreak
  | raw
  | noraw
  | endwin
  | wgetch (win : WindowPtr)
  | mvwaddch (win : WindowPtr) (y x : Int) (ch : Nat)
  | waddch (win : WindowPtr) (ch : Nat)
  | wmove (win : WindowPtr) (y x : Int)
  | wresize (win : WindowPtr) (rows cols : Int)
  | keypad (win : WindowPtr) (bf : Int)
  | wrefresh (win : WindowPtr)
  | wredrawln (win : WindowPtr) (beg_line num_lines : Int)
  | redrawwin (win : WindowPtr)
  | wclear (win : WindowPtr)
  | werase (win : WindowPtr)
  | wclrtobot (win : WindowPtr)
  | wclrtoeol (win : WindowPtr)
  | box (win : WindowPtr) (verch horch : Nat)
  | wbkgd (win : WindowPtr) (ch : Nat)
  | wattron (win : WindowPtr) (attrs : Int)
  | wattroff (win : WindowPtr) (attrs : Int)
deriving DecidableEq, Repr

/-- A format argument (a value passed in the variadic `v ...interface{}`). -/
inductive Value where
  | int (n : Int)
  | str (s : GoString)
deriving DecidableEq, Repr

/-- The libraries the package calls into.  `call` is the native curses library:
given a call and the native state it answers with the call's result (a status,
a value, or for the window-creating calls the address of the new window) and
the next native state.  `Sprintf` is `fmt.Sprintf`. -/
structure Lib (σ : Type) where
  call : Call → σ → Int × σ
  Sprintf : GoString → List Value → GoString

/-- The state a call of the package runs in: the native library's state, the
package variable `Stdwin`, and the native calls made so far with their results,
oldest first. -/
structure World (σ : Type) where
  native : σ
  Stdwin : WindowPtr
  trace : List (Call × Int)

/-- The state of a freshly loaded package: `var Stdwin *Window = nil`, no
native call made yet. -/
def World.init {σ : Type} (s : σ) : World σ :=
  { native := s, Stdwin := nil, trace := [] }

/-- The native calls made so far, without their results. -/
def World.calls {σ : Type} (w : World σ) : List Call :=
  w.trace.map Prod.fst

/-- Perform one native call: ask the library, log the call and its result. -/
def invoke {σ : Type} (L : Lib σ) (c : Call) (w : World σ) : Int × World σ :=
  ((L.call c w.native).1,
   { native := (L.call c w.native).2, Stdwin := w.Stdwin,
     trace := w.trace ++ [(c, (L.call c w.native).1)] })

/-! ## The exported functions -/

section Functions

variable {σ : Type}

/-- The Go function `Initscr`. -/
def Initscr (L : Lib σ) (w : World σ) : (WindowPtr × Option CursesError) × World σ :=
  let r := invoke L Call.initscr w
  let w1 : World σ := { r.2 with Stdwin := r.1 }
  if w1.Stdwin = nil then
    ((nil, some ⟨"Initscr failed"⟩), w1)
  else
    ((w1.Stdwin, none), w1)

/-- The Go function `Newwin`. -/
def Newwin (L : Lib σ) (rows cols starty startx : Int) (w : World σ) :
    (WindowPtr × Option CursesError) × World σ :=
  let r := invoke L (Call.newwin (C.int rows) (C.int cols) (C.int starty) (C.int startx)) w
  if r.1 = nil then
    ((nil, some ⟨"Failed to create window"⟩), r.2)
  else
    ((r.1, none), r.2)

/-- The Go method `(*Window).Delwin`. -/
def Window.Delwin (L : Lib σ) (win : WindowPtr) (w : World σ) :
    Option CursesError × World σ :=
  let r := invoke L (Call.delwin win) w
  if r.1 ≠ OK then (some ⟨"delete failed"⟩, r.2) else (none, r.2)

/-- The Go method `(*Window).Subwin`. -/
def Window.Subwin (L : Lib σ) (win : WindowPtr) (rows cols starty startx : Int)
    (w : World σ) : (WindowPtr × Option CursesError) × World σ :=
  let r := invoke L
    (Call.subwin win (C.int rows) (C.int cols) (C.int starty) (C.int startx)) w
  if r.1 = nil then
    ((nil, some ⟨"Failed to create window"⟩), r.2)
  else
    ((r.1, none), r.2)

/-- The Go method `(*Window).Derwin`. -/
def Window.Derwin (L : Lib σ) (win : WindowPtr) (rows cols starty startx : Int)
    (w : World σ) : (WindowPtr × Option CursesError) × World σ :=
  let r := invoke L
    (Call.derwin win (C.int rows) (C.int cols) (C.int starty) (C.int startx)) w
  if r.1 = nil then
    ((nil, some ⟨"Failed to create window"⟩), r.2)
  else
    ((r.1, none), r.2)

/-- The Go function `Start_color`. -/
def Start_color (L : Lib σ) (w : World σ) : Option CursesError × World σ :=
  let h := invoke L Call.has_colors w
  if h.1 = 0 then
    (some ⟨"terminal does not support color"⟩, h.2)
  else
    let r := invoke L Call.start_color h.2
    if r.1 ≠ OK then (some ⟨"Start_color failed"⟩, r.2) else (none, r.2)

/-- The Go function `Init_pair`; it returns nothing. -/
def Init_pair (L : Lib σ) (pair fg bg : Int) (w : World σ) : Unit × World σ :=
  let r := invoke L (Call.init_pair (C.short pair) (C.short fg) (C.short bg)) w
  ((), r.2)

/-- The Go function `Color_pair`. -/
def Color_pair (L : Lib σ) (pair : Int) (w : World σ) : Int × World σ :=
  let r := invoke L (Call.COLOR_PAIR (C.int pair)) w
  (int32 r.1, r.2)

/-- The Go function `Noecho`. -/
def Noecho (L : Lib σ) (w : World σ) : Option CursesError × World σ :=
  let r := invoke L Call.noecho w
  if r.1 ≠ OK then (some ⟨"Noecho failed"⟩, r.2) else (none, r.2)

/-- The Go function `DoUpdate`. -/
def DoUpdate (L : Lib σ) (w : World σ) : Option CursesError × World σ :=
  let r := invoke L Call.doupdate w
  if r.1 ≠ OK then (some ⟨"Doupdate failed"⟩, r.2) else (none, r.2)

/-- The Go function `Echo`; its body calls `C.noecho()`. -/
def Echo (L : Lib σ) (w : World σ) : Option CursesError × World σ :=
  let r := invoke L Call.noecho w
  if r.1 ≠ OK then (some ⟨"Echo failed"⟩, r.2) else (none, r.2)

/-- The Go function `Curs_set`; it compares the native result with `ERR`. -/
def Curs_set (L : Lib σ) (c : Int) (w : World σ) : Option CursesError × World σ :=
  let r := invoke L (Call.curs_set (C.int c)) w
  if r.1 = ERR then (some ⟨"Curs_set failed"⟩, r.2) else (none, r.2)

/-- The Go function `Nocbreak`. -/
def Nocbreak (L : Lib σ) (w : World σ) : Option CursesError × World σ :=
  let r := invoke L Call.nocbreak w
  if r.1 ≠ OK then (some ⟨"Nocbreak failed"⟩, r.2) else (none, r.2)

/-- The Go function `Cbreak`. -/
def Cbreak (L : Lib σ) (w : World σ) : Option CursesError × World σ :=
  let r := invoke L Call.cbreak w
  if r.1 ≠ OK then (some ⟨"Cbreak failed"⟩, r.2) else (none, r.2)

/-- The Go function `Raw`. -/
def Raw (L : Lib σ) (w : World σ) : Option CursesError × World σ :=
  let r := invoke L Call.raw w
  if r.1 ≠ OK then (some ⟨"Raw failed"⟩, r.2) else (none, r.2)

/-- The Go function `Noraw`. -/
def Noraw (L : Lib σ) (w : World σ) : Option CursesError × World σ :=
  let r := invoke L Call.noraw w
  if r.1 ≠ OK then (some ⟨"Noraw failed"⟩, r.2) else (none, r.2)

/-- The Go function `Endwin`. -/
def Endwin (L : Lib σ) (w : World σ) : Option CursesError × World σ :=
  let r := invoke L Call.endwin w
  if r.1 ≠ OK then (some ⟨"Endwin failed"⟩, r.2) else (none, r.2)

/-- The Go method `(*Window).Getch`: the native result, untranslated. -/
def Window.Getch (L : Lib σ) (win : WindowPtr) (w : World σ) : Int × World σ :=
  invoke L (Call.wgetch win) w

/-- The Go method `(*Window).Addch(x, y, c, flags)`. -/
def Window.Addch (L : Lib σ) (win : WindowPtr) (x y : Int) (c flags : Int)
    (w : World σ) : Option CursesError × World σ :=
  let r := invoke L (Call.mvwaddch win (C.int y) (C.int x) (C.chtype c ||| C.chtype flags)) w
  if r.1 ≠ OK then (some ⟨"Addch failed"⟩, r.2) else (none, r.2)

/-- The Go method `(*Window).Move(y, x)`. -/
def Window.Move (L : Lib σ) (win : WindowPtr) (y x : Int) (w : World σ) :
    Option CursesError × World σ :=
  let r := invoke L (Call.wmove win (C.int y) (C.int x)) w
  if r.1 ≠ OK then (some ⟨"Move failed"⟩, r.2) else (none, r.2)

/-- The loop `for i := 0; i < len(newstr); i++ { C.waddch(win, C.chtype(newstr[i])|C.chtype(flags)) }`
of `Addstr`, over the bytes still to be written; the result of each write is dropped. -/
def Window.Addstr.loop (L : Lib σ) (win : WindowPtr) (flags : Int) :
    GoString → World σ → World σ
  | [], w => w
  | b :: rest, w =>
    Window.Addstr.loop L win flags rest
      (invoke L (Call.waddch win (C.chtype (b.val : Int) ||| C.chtype flags)) w).2

/-- The Go method `(*Window).Addstr(x, y, str, flags, v...)`; it returns nothing.
`v` is `none` for the nil slice of a call without format arguments.  The body
calls `win.Move(x, y)` and drops its result. -/
def Window.Addstr (L : Lib σ) (win : WindowPtr) (x y : Int) (str : GoString) (flags : Int)
    (v : Option (List Value)) (w : World σ) : Unit × World σ :=
  let newstr : GoString :=
    match v with
    | some args => L.Sprintf str args
    | none => str
  let m := Window.Move L win x y w
  ((), Window.Addstr.loop L win flags newstr m.2)

/-- The Go method `(*Window).Resize`. -/
def Window.Resize (L : Lib σ) (win : WindowPtr) (rows cols : Int) (w : World σ) :
    Option CursesError × World σ :=
  let r := invoke L (Call.wresize win (C.int rows) (C.int cols)) w
  if r.1 ≠ OK then (some ⟨"Resize failed"⟩, r.2) else (none, r.2)

/-- The Go method `(*Window).Keypad`. -/
def Window.Keypad (L : Lib σ) (win : WindowPtr) (tf : Bool) (w : World σ) :
    Option CursesError × World σ :=
  let outint : Int := if tf then 1 else 0
  let r := invoke L (Call.keypad win (C.int outint)) w
  if r.1 ≠ OK then (some ⟨"Keypad failed"⟩, r.2) else (none, r.2)

/-- The Go method `(*Window).Refresh`. -/
def Window.Refresh (L : Lib σ) (win : WindowPtr) (w : World σ) :
    Option CursesError × World σ :=
  let r := invoke L (Call.wrefresh win) w
  if r.1 ≠ OK then (some ⟨"Refresh failed"⟩, r.2) else (none, r.2)

/-- The Go method `(*Window).Redrawln`. -/
def Window.Redrawln (L : Lib σ) (win : WindowPtr) (beg_line num_lines : Int) (w : World σ) :
    Option CursesError × World σ :=
  let r := invoke L (Call.wredrawln win (C.int beg_line) (C.int num_lines)) w
  if r.1 ≠ OK then (some ⟨"Redrawln failed"⟩, r.2) else (none, r.2)

/-- The Go method `(*Window).Redraw`. -/
def Window.Redraw (L : Lib σ) (win : WindowPtr) (w : World σ) :
    Option CursesError × World σ :=
  let r := invoke L (Call.redrawwin win) w
  if r.1 ≠ OK then (some ⟨"Redraw failed"⟩, r.2) else (none, r.2)

/-- The Go method `(*Window).Clear`. -/
def Window.Clear (L : Lib σ) (win : WindowPtr) (w : World σ) :
    Option CursesError × World σ :=
  let r := invoke L (Call.wclear win) w
  if r.1 ≠ OK then (some ⟨"Clear failed"⟩, r.2) else (none, r.2)

/-- The Go method `(*Window).Erase`. -/
def Window.Erase (L : Lib σ) (win : WindowPtr) (w : World σ) :
    Option CursesError × World σ :=
  let r := invoke L (Call.werase win) w
  if r.1 ≠ OK then (some ⟨"Erase failed"⟩, r.2) else (none, r.2)

/-- The Go method `(*Window).Clrtobot`. -/
def Window.Clrtobot (L : Lib σ) (win : WindowPtr) (w : World σ) :
    Option CursesError × World σ :=
  let r := invoke L (Call.wclrtobot win) w
  if r.1 ≠ OK then (some ⟨"Clrtobot failed"⟩, r.2) else (none, r.2)

/-- The Go method `(*Window).Clrtoeol`. -/
def Window.Clrtoeol (L : Lib σ) (win : WindowPtr) (w : World σ) :
    Option CursesError × World σ :=
  let r := invoke L (Call.wclrtoeol win) w
  if r.1 ≠ OK then (some ⟨"Clrtoeol failed"⟩, r.2) else (none, r.2)

/-- The Go method `(*Window).Box`; the native result is not checked. -/
def Window.Box (L : Lib σ) (win : WindowPtr) (verch horch : Int) (w : World σ) :
    Unit × World σ :=
  ((), (invoke L (Call.box win (C.chtype verch) (C.chtype horch)) w).2)

/-- The Go method `(*Window).Background`; the native result is not checked. -/
def Window.Background (L : Lib σ) (win : WindowPtr) (colour : Int) (w : World σ) :
    Unit × World σ :=
  ((), (invoke L (Call.wbkgd win (C.chtype colour)) w).2)

/-- The Go method `(*Window).Attron`. -/
def Window.Attron (L : Lib σ) (win : WindowPtr) (flags : Int) (w : World σ) :
    Option CursesError × World σ :=
  let r := invoke L (Call.wattron win (C.int flags)) w
  if r.1 ≠ OK then (some ⟨"Attron failed"⟩, r.2) else (none, r.2)

/-- The Go method `(*Window).Attroff`; its failure message is the literal
`"Attron failed"`. -/
def Window.Attroff (L : Lib σ) (win : WindowPtr) (flags : Int) (w : World σ) :
    Option CursesError × World σ :=
  let r := invoke L (Call.wattroff win (C.int flags)) w
  if r.1 ≠ OK then (some ⟨"Attron failed"⟩, r.2) else (none, r.2)

end Functions

/-! ## The exported operations as data -/

/-- The names of the exported operations of the package. -/
inductive OpName where
  | Initscr | Newwin | Delwin | Subwin | Derwin | Start_color | Init_pair
  | Color_pair | Noecho | DoUpdate | Echo | Curs_set | Nocbreak | Cbreak | Raw
  | Noraw | Endwin | Getch | Addch | Addstr | Move | Resize | Keypad | Refresh
  | Redrawln | Redraw | Clear | Erase | Clrtobot | Clrtoeol | Box | Background
  | Attron | Attroff
deriving DecidableEq, Repr

/-- A call of an exported operation with its arguments. -/
inductive Op where
  | Initscr
  | Newwin (rows cols starty startx : Int)
  | Delwin (win : WindowPtr)
  | Subwin (win : WindowPtr) (rows cols starty startx : Int)
  | Derwin (win : WindowPtr) (rows cols starty startx : Int)
  | Start_color
  | Init_pair (pair fg bg : Int)
  | Color_pair (pair : Int)
  | Noecho
  | DoUpdate
  | Echo
  | Curs_set (c : Int)
  | Nocbreak
  | Cbreak
  | Raw
  | Noraw
  | Endwin
  | Getch (win : WindowPtr)
  | Addch (win : WindowPtr) (x y : Int) (c flags : Int)
  | Addstr (win : WindowPtr) (x y : Int) (str : GoString) (flags : Int)
      (v : Option (List Value))
  | Move (win : WindowPtr) (y x : Int)
  | Resize (win : WindowPtr) (rows cols : Int)
  | Keypad (win : WindowPtr) (tf : Bool)
  | Refresh (win : WindowPtr)
  | Redrawln (win : WindowPtr) (beg_line num_lines : Int)
  | Redraw (win : WindowPtr)
  | Clear (win : WindowPtr)
  | Erase (win : WindowPtr)
  | Clrtobot (win : WindowPtr)
  | Clrtoeol (win : WindowPtr)
  | Box (win : WindowPtr) (verch horch : Int)
  | Background (win : WindowPtr) (colour : Int)
  | Attron (win : WindowPtr) (flags : Int)
  | Attroff (win : WindowPtr) (flags : Int)
deriving DecidableEq, Repr

/-- The operation a call is a call of. -/
def Op.name : Op → OpName
  | .Initscr => .Initscr
  | .Newwin .. => .Newwin
  | .Delwin .. => .Delwin
  | .Subwin .. => .Subwin
  | .Derwin .. => .Derwin
  | .Start_color => .Start_color
  | .Init_pair .. => .Init_pair
  | .Color_pair .. => .Color_pair
  | .Noecho => .Noecho
  | .DoUpdate => .DoUpdate
  | .Echo => .Echo
  | .Curs_set .. => .Curs_set
  | .Nocbreak => .Nocbreak
  | .Cbreak => .Cbreak
  | .Raw => .Raw
  | .Noraw => .Noraw
  | .Endwin => .Endwin
  | .Getch .. => .Getch
  | .Addch .. => .Addch
  | .Addstr .. => .Addstr
  | .Move .. => .Move
  | .Resize .. => .Resize
  | .Keypad .. => .Keypad
  | .Refresh .. => .Refresh
  | .Redrawln .. => .Redrawln
  | .Redraw .. => .Redraw
  | .Clear .. => .Clear
  | .Erase .. => .Erase
  | .Clrtobot .. => .Clrtobot
  | .Clrtoeol .. => .Clrtoeol
  | .Box .. => .Box
  | .Background .. => .Background
  | .Attron .. => .Attron
  | .Attroff .. => .Attroff

/-- What a call of an exported operation hands back to its caller. -/
inductive Ret where
  | nothing
  | error (e : Option CursesError)
  | window (p : WindowPtr) (e : Option CursesError)
  | value (n : Int)
deriving DecidableEq, Repr

/-- The failure value among the results of a call, if there is one. -/
def Ret.err : Ret → Option CursesError
  | .nothing => none
  | .error e => e
  | .window _ e => e
  | .value _ => none

/-- Run one call of an exported operation. -/
def runOp {σ : Type} (L : Lib σ) (op : Op) (w : World σ) : Ret × World σ :=
  match op with
  | .Initscr => (Ret.window (Initscr L w).1.1 (Initscr L w).1.2, (Initscr L w).2)
  | .Newwin rows cols starty startx =>
    (Ret.window (Newwin L rows cols starty startx w).1.1
      (Newwin L rows cols starty startx w).1.2, (Newwin L rows cols starty startx w).2)
  | .Delwin win => (Ret.error (Window.Delwin L win w).1, (Window.Delwin L win w).2)
  | .Subwin win rows cols starty startx =>
    (Ret.window (Window.Subwin L win rows cols starty startx w).1.1
      (Window.Subwin L win rows cols starty startx w).1.2,
      (Window.Subwin L win rows cols starty startx w).2)
  | .Derwin win rows cols starty startx =>
    (Ret.window (Window.Derwin L win rows cols starty startx w).1.1
      (Window.Derwin L win rows cols starty startx w).1.2,
      (Window.Derwin L win rows cols starty startx w).2)
  | .Start_color => (Ret.error (Start_color L w).1, (Start_color L w).2)
  | .Init_pair pair fg bg => (Ret.nothing, (Init_pair L pair fg bg w).2)
  | .Color_pair pair => (Ret.value (Color_pair L pair w).1, (Color_pair L pair w).2)
  | .Noecho => (Ret.error (Noecho L w).1, (Noecho L w).2)
  | .DoUpdate => (Ret.error (DoUpdate L w).1, (DoUpdate L w).2)
  | .Echo => (Ret.error (Echo L w).1, (Echo L w).2)
  | .Curs_set c => (Ret.error (Curs_set L c w).1, (Curs_set L c w).2)
  | .Nocbreak => (Ret.error (Nocbreak L w).1, (Nocbreak L w).2)
  | .Cbreak => (Ret.error (Cbreak L w).1, (Cbreak L w).2)
  | .Raw => (Ret.error (Raw L w).1, (Raw L w).2)
  | .Noraw => (Ret.error (Noraw L w).1, (Noraw L w).2)
  | .Endwin => (Ret.error (Endwin L w).1, (Endwin L w).2)
  | .Getch win => (Ret.value (Window.Getch L win w).1, (Window.Getch L win w).2)
  | .Addch win x y c flags =>
    (Ret.error (Window.Addch L win x y c flags w).1, (Window.Addch L win x y c flags w).2)
  | .Addstr win x y str flags v => (Ret.nothing, (Window.Addstr L win x y str flags v w).2)
  | .Move win y x => (Ret.error (Window.Move L win y x w).1, (Window.Move L win y x w).2)
  | .Resize win rows cols =>
    (Ret.error (Window.Resize L win rows cols w).1, (Window.Resize L win rows cols w).2)
  | .Keypad win tf => (Ret.error (Window.Keypad L win tf w).1, (Window.Keypad L win tf w).2)
  | .Refresh win => (Ret.error (Window.Refresh L win w).1, (Window.Refresh L win w).2)
  | .Redrawln win b n =>
    (Ret.error (Window.Redrawln L win b n w).1, (Window.Redrawln L win b n w).2)
  | .Redraw win => (Ret.error (Window.Redraw L win w).1, (Window.Redraw L win w).2)
  | .Clear win => (Ret.error (Window.Clear L win w).1, (Window.Clear L win w).2)
  | .Erase win => (Ret.error (Window.Erase L win w).1, (Window.Erase L win w).2)
  | .Clrtobot win => (Ret.error (Window.Clrtobot L win w).1, (Window.Clrtobot L win w).2)
  | .Clrtoeol win => (Ret.error (Window.Clrtoeol L win w).1, (Window.Clrtoeol L win w).2)
  | .Box win verch horch => (Ret.nothing, (Window.Box L win verch horch w).2)
  | .Background win colour => (Ret.nothing, (Window.Background L win colour w).2)
  | .Attron win flags =>
    (Ret.error (Window.Attron L win flags w).1, (Window.Attron L win flags w).2)
  | .Attroff win flags =>
    (Ret.error (Window.Attroff L win flags w).1, (Window.Attroff L win flags w).2)

/-- Run a sequence of calls, first to last. -/
def runAll {σ : Type} (L : Lib σ) : List Op → World σ → World σ
  | [], w => w
  | op :: rest, w => runAll L rest (runOp L op w).2

/-- The status-checked passthrough operations: one native call, whose status is
compared with `OK`. -/
def OpName.isPassthrough : OpName → Bool
  | .Delwin | .Move | .Resize | .Keypad | .Refresh | .Redrawln | .Redraw | .Clear
  | .Erase | .Clrtobot | .Clrtoeol | .Attron | .Attroff | .Noecho | .DoUpdate
  | .Cbreak | .Nocbreak | .Raw | .Noraw | .Endwin => true
  | _ => false

/-- The result of the most recent native `initscr` call in a log of native
calls, `nil` when there is none. -/
def lastInitscr (trace : List (Call × Int)) : WindowPtr :=
  trace.foldl (fun acc cr => if cr.1 = Call.initscr then cr.2 else acc) nil

/-- The failure messages in the body of each exported operation: the string
literals of the `CursesError` values it can return. -/
def failureMessages : OpName → List String
  | .Initscr => ["Initscr failed"]
  | .Newwin => ["Failed to create window"]
  | .Delwin => ["delete failed"]
  | .Subwin => ["Failed to create window"]
  | .Derwin => ["Failed to create window"]
  | .Start_color => ["terminal does not support color", "Start_color failed"]
  | .Init_pair => []
  | .Color_pair => []
  | .Noecho => ["Noecho failed"]
  | .DoUpdate => ["Doupdate failed"]
  | .Echo => ["Echo failed"]
  | .Curs_set => ["Curs_set failed"]
  | .Nocbreak => ["Nocbreak failed"]
  | .Cbreak => ["Cbreak failed"]
  | .Raw => ["Raw failed"]
  | .Noraw => ["Noraw failed"]
  | .Endwin => ["Endwin failed"]
  | .Getch => []
  | .Addch => ["Addch failed"]
  | .Addstr => []
  | .Move => ["Move failed"]
  | .Resize => ["Resize failed"]
  | .Keypad => ["Keypad failed"]
  | .Refresh => ["Refresh failed"]
  | .Redrawln => ["Redrawln failed"]
  | .Redraw => ["Redraw failed"]
  | .Clear => ["Clear failed"]
  | .Erase => ["Erase failed"]
  | .Clrtobot => ["Clrtobot failed"]
  | .Clrtoeol => ["Clrtoeol failed"]
  | .Box => []
  | .Background => []
  | .Attron => ["Attron failed"]
  | .Attroff => ["Attron failed"]

/-- The three operations that create a window: Newwin, Subwin and Derwin. -/
def OpName.createsWindow : OpName → Bool
  | .Newwin | .Subwin | .Derwin => true
  | _ => false

/-! ## Native backends to evaluate on -/

/-- A scripted native library: its state is the list of results still to be
handed out, one per native call; when the list is exhausted it answers `OK`.
Its `Sprintf` leaves the format string as it is. -/
def scripted : Lib (List Int) where
  call := fun _ s =>
    match s with
    | [] => (OK, [])
    | r :: rest => (r, rest)
  Sprintf := fun str _ => str

/-- The state of a small terminal: the echo mode, the cursor (row, column) and
the cells written so far as (row, column, cell value), oldest first. -/
structure Term where
  echoOn : Bool
  row : Int
  col : Int
  cells : List (Int × Int × Nat)
deriving DecidableEq, Repr

/-- A small terminal as native library, following the curses manual for the
calls it interprets: `echo` and `noecho` set the echo mode, `wmove` sets the
cursor, `waddch` writes the cell under the cursor and advances the column,
`mvwaddch` is `wmove` followed by `waddch`.  Every call succeeds. -/
def term : Lib Term where
  call := fun c s =>
    match c with
    | Call.echo => (OK, { s with echoOn := true })
    | Call.noecho => (OK, { s with echoOn := false })
    | Call.wmove _ y x => (OK, { s with row := y, col := x })
    | Call.waddch _ ch =>
      (OK, { s with col := s.col + 1, cells := s.cells ++ [(s.row, s.col, ch)] })
    | Call.mvwaddch _ y x ch =>
      (OK, { s with row := y, col := x + 1, cells := s.cells ++ [(y, x, ch)] })
    | _ => (OK, s)
  Sprintf := fun str _ => str

/-- A terminal with echo mode on, the cursor at the origin and nothing written. -/
def Term.start : Term := { echoOn := true, row := 0, col := 0, cells := [] }

/-! ## Conversions -/

theorem toSigned_eq_self_iff (bits : Nat) (hb : 0 < bits) (v : Int) :
    toSigned bits v = v ↔ -(2 : Int) ^ (bits - 1) ≤ v ∧ v < 2 ^ (bits - 1) := by
  have hp : (2 : Int) ^ bits = 2 * 2 ^ (bits - 1) := by
    obtain ⟨k, rfl⟩ : ∃ k, bits = k + 1 := ⟨bits - 1, by omega⟩
    simp [pow_succ, mul_comm]
  have hpos : (0 : Int) < 2 ^ (bits - 1) := by positivity
  unfold toSigned
  rw [hp]
  generalize (2 : Int) ^ (bits - 1) = m at hpos ⊢
  constructor
  · intro h
    have h1 := Int.emod_nonneg (v + m) (show (2 * m) ≠ 0 by omega)
    have h2 := Int.emod_lt_of_pos (v + m) (show (0 : Int) < 2 * m by omega)
    omega
  · rintro ⟨h1, h2⟩
    rw [Int.emod_eq_of_lt (by omega) (by omega)]
    omega

theorem C_short_eq_self_iff (v : Int) : C.short v = v ↔ -32768 ≤ v ∧ v ≤ 32767 := by
  have h := toSigned_eq_self_iff 16 (by decide) v
  simp only [C.short]
  rw [h]
  norm_num
  omega

theorem C_int_eq_self (v : Int) (h1 : -2147483648 ≤ v) (h2 : v ≤ 2147483647) :
    C.int v = v := by
  have h := toSigned_eq_self_iff 32 (by decide) v
  simp only [C.int]
  rw [h]
  norm_num
  omega

/-! ## Start_color -/

/-- C1: for every native library and state, `Start_color` returns a failure when
`has_colors` answers 0, and then `has_colors` is the only native call it makes
(`start_color` is not invoked); it returns a failure when `has_colors` answers
non-zero and `start_color` answers a status other than `OK`; and it returns nil
exactly when `has_colors` answers non-zero and `start_color` answers `OK`. -/
theorem Start_color_contract {σ : Type} (L : Lib σ) (w : World σ) :
    ((L.call Call.has_colors w.native).1 = 0 →
      (Start_color L w).1 = some ⟨"terminal does not support color"⟩ ∧
      (Start_color L w).2.trace = w.trace ++ [(Call.has_colors, 0)] ∧
      Call.start_color ∉ ((Start_color L w).2.trace.drop w.trace.length).map Prod.fst) ∧
    ((L.call Call.has_colors w.native).1 ≠ 0 →
      (L.call Call.start_color (L.call Call.has_colors w.native).2).1 ≠ OK →
      (Start_color L w).1 = some ⟨"Start_color failed"⟩) ∧
    ((Start_color L w).1 = none ↔
      (L.call Call.has_colors w.native).1 ≠ 0 ∧
      (L.call Call.start_color (L.call Call.has_colors w.native).2).1 = OK) := by
  refine ⟨?_, ?_, ?_⟩
  · intro h
    simp [Start_color, invoke, h]
  · intro h1 h2
    simp [Start_color, invoke, h1, h2]
  · by_cases h1 : (L.call Call.has_colors w.native).1 = 0
    · simp [Start_color, invoke, h1]
    · by_cases h2 : (L.call Call.start_color (L.call Call.has_colors w.native).2).1 = OK
      · simp [Start_color, invoke, h1, h2]
      · simp [Start_color, invoke, h1, h2]

/-- Witness for C1 on the scripted library: `has_colors` answering 0 gives the
failure after one native call; `has_colors` answering 1 and `start_color`
answering `ERR` gives the other failure. -/
theorem Start_color_contract_witness :
    ((Start_color scripted (World.init [0])).1 = some ⟨"terminal does not support color"⟩ ∧
      (Start_color scripted (World.init [0])).2.trace = [] ++ [(Call.has_colors, 0)] ∧
      Call.start_color ∉
        ((Start_color scripted (World.init [0])).2.trace.drop 0).map Prod.fst) ∧
    (Start_color scripted (World.init [1, ERR])).1 = some ⟨"Start_color failed"⟩ ∧
    (Start_color scripted (World.init [1, OK])).1 = none :=
  ⟨(Start_color_contract scripted (World.init [0])).1 rfl,
   (Start_color_contract scripted (World.init [1, ERR])).2.1 (by decide) (by decide),
   (Start_color_contract scripted (World.init [1, OK])).2.2.2 ⟨by decide, rfl⟩⟩

/-! ## Echo and Noecho -/

/-- C2 (the code at fault): for every native library and state, the one native
call `Echo` makes is `noecho`, the call that leaves echo mode and not `echo`,
the call that enters it; `Echo` leaves the world exactly as `Noecho` does.  On
the small terminal started with echo mode on, `Echo` succeeds and echo mode is
off afterwards. -/
theorem Echo_invokes_noecho {σ : Type} (L : Lib σ) (w : World σ) :
    (Echo L w).2.trace = w.trace ++ [(Call.noecho, (L.call Call.noecho w.native).1)] ∧
    (Echo L w).2 = (Noecho L w).2 ∧
    Call.echo ∉ ((Echo L w).2.trace.drop w.trace.length).map Prod.fst ∧
    ((Echo L w).1 = none ↔ (L.call Call.noecho w.native).1 = OK) ∧
    (Term.start.echoOn = true ∧
      (Echo term (World.init Term.start)).1 = none ∧
      (Echo term (World.init Term.start)).2.native.echoOn = false) := by
  refine ⟨?_, ?_, ?_, ?_, ?_⟩
  · by_cases h : (L.call Call.noecho w.native).1 = OK <;> simp [Echo, invoke, h]
  · by_cases h : (L.call Call.noecho w.native).1 = OK <;> simp [Echo, Noecho, invoke, h]
  · by_cases h : (L.call Call.noecho w.native).1 = OK <;> simp [Echo, invoke, h]
  · by_cases h : (L.call Call.noecho w.native).1 = OK <;> simp [Echo, invoke, h]
  · decide

/-! ## Curs_set -/

/-- C6: `Curs_set(c)` makes the one native call `curs_set(C.int(c))` and returns
a failure exactly when that call answers `ERR`; for every other answer it
returns nil, in particular for the answers 1 and 2, which differ from `OK`.  The
constants `CURS_HIDE` = 0, `CURS_NORM` = 1, `CURS_HIGH` = 2 are forwarded
unchanged. -/
theorem Curs_set_contract {σ : Type} (L : Lib σ) (c : Int) (w : World σ) :
    (Curs_set L c w).2.trace =
      w.trace ++ [(Call.curs_set (C.int c), (L.call (Call.curs_set (C.int c)) w.native).1)] ∧
    ((Curs_set L c w).1 = some ⟨"Curs_set failed"⟩ ↔
      (L.call (Call.curs_set (C.int c)) w.native).1 = ERR) ∧
    ((Curs_set L c w).1 = none ↔ (L.call (Call.curs_set (C.int c)) w.native).1 ≠ ERR) ∧
    ((L.call (Call.curs_set (C.int c)) w.native).1 = 1 ∨
      (L.call (Call.curs_set (C.int c)) w.native).1 = 2 →
        (L.call (Call.curs_set (C.int c)) w.native).1 ≠ OK ∧ (Curs_set L c w).1 = none) ∧
    (CURS_HIDE = 0 ∧ CURS_NORM = 1 ∧ CURS_HIGH = 2) ∧
    (C.int CURS_HIDE = CURS_HIDE ∧ C.int CURS_NORM = CURS_NORM ∧
      C.int CURS_HIGH = CURS_HIGH) := by
  refine ⟨?_, ?_, ?_, ?_, by decide, by decide⟩
  · by_cases h : (L.call (Call.curs_set (C.int c)) w.native).1 = ERR <;>
      simp [Curs_set, invoke, h]
  · by_cases h : (L.call (Call.curs_set (C.int c)) w.native).1 = ERR <;>
      simp [Curs_set, invoke, h]
  · by_cases h : (L.call (Call.curs_set (C.int c)) w.native).1 = ERR <;>
      simp [Curs_set, invoke, h]
  · intro h
    have hne : (L.call (Call.curs_set (C.int c)) w.native).1 ≠ ERR := by
      rcases h with h | h <;> rw [h] <;> decide
    refine ⟨?_, ?_⟩
    · rcases h with h | h <;> rw [h] <;> decide
    · simp [Curs_set, invoke, hne]

/-- Witness for C6 on the scripted library: the native call answering 2, the
previous visibility, is not a failure, and answering `ERR` is one. -/
theorem Curs_set_contract_witness :
    ((2 : Int) ≠ OK ∧ (Curs_set scripted CURS_HIDE (World.init [2])).1 = none) ∧
    (Curs_set scripted CURS_HIGH (World.init [ERR])).1 = some ⟨"Curs_set failed"⟩ ∧
    (Curs_set scripted CURS_HIGH (World.init [ERR])).2.trace = [(Call.curs_set 2, ERR)] :=
  ⟨(Curs_set_contract scripted CURS_HIDE (World.init [2])).2.2.2.1 (Or.inr rfl),
   (Curs_set_contract scripted CURS_HIGH (World.init [ERR])).2.1.2 rfl,
   (Curs_set_contract scripted CURS_HIGH (World.init [ERR])).1⟩

/-! ## Addch -/

/-- C8: `Addch(x, y, c, flags)` makes the one native call
`mvwaddch(win, C.int(y), C.int(x), C.chtype(c) | C.chtype(flags))`: row `y`,
column `x` (the conversion to a C `int` leaves every coordinate that fits in 32
bits unchanged) and the cell value `c` OR `flags`, both converted to the native
cell type.  It returns nil exactly when that call answers `OK`, and a failure
value otherwise. -/
theorem Addch_contract {σ : Type} (L : Lib σ) (win : WindowPtr) (x y c flags : Int)
    (w : World σ) :
    (Window.Addch L win x y c flags w).2.trace =
      w.trace ++ [(Call.mvwaddch win (C.int y) (C.int x) (C.chtype c ||| C.chtype flags),
        (L.call (Call.mvwaddch win (C.int y) (C.int x) (C.chtype c ||| C.chtype flags))
          w.native).1)] ∧
    ((Window.Addch L win x y c flags w).1 = none ↔
      (L.call (Call.mvwaddch win (C.int y) (C.int x) (C.chtype c ||| C.chtype flags))
        w.native).1 = OK) ∧
    ((Window.Addch L win x y c flags w).1 ≠ none →
      (Window.Addch L win x y c flags w).1 = some ⟨"Addch failed"⟩) ∧
    (-2147483648 ≤ y ∧ y ≤ 2147483647 → C.int y = y) ∧
    (-2147483648 ≤ x ∧ x ≤ 2147483647 → C.int x = x) := by
  refine ⟨?_, ?_, ?_, fun h => C_int_eq_self y h.1 h.2, fun h => C_int_eq_self x h.1 h.2⟩
  · by_cases h : (L.call (Call.mvwaddch win (C.int y) (C.int x)
        (C.chtype c ||| C.chtype flags)) w.native).1 = OK <;>
      simp [Window.Addch, invoke, h]
  · by_cases h : (L.call (Call.mvwaddch win (C.int y) (C.int x)
        (C.chtype c ||| C.chtype flags)) w.native).1 = OK <;>
      simp [Window.Addch, invoke, h]
  · by_cases h : (L.call (Call.mvwaddch win (C.int y) (C.int x)
        (C.chtype c ||| C.chtype flags)) w.native).1 = OK <;>
      simp [Window.Addch, invoke, h]

/-- Witness for C8 on the scripted library: writing the byte 65 with the
attribute bit 256 at x = 3, y = 7 calls `mvwaddch` with row 7, column 3 and cell
value 321; a native `ERR` is surfaced. -/
theorem Addch_contract_witness :
    (Window.Addch scripted 1 3 7 65 256 (World.init [ERR])).2.trace =
      [(Call.mvwaddch 1 7 3 321, ERR)] ∧
    (Window.Addch scripted 1 3 7 65 256 (World.init [ERR])).1 = some ⟨"Addch failed"⟩ ∧
    C.int 7 = 7 :=
  ⟨(Addch_contract scripted 1 3 7 65 256 (World.init [ERR])).1,
   (Addch_contract scripted 1 3 7 65 256 (World.init [ERR])).2.2.1 (by decide),
   (Addch_contract scripted 1 3 7 65 256 (World.init [ERR])).2.2.2.1 (by decide)⟩

/-! ## Init_pair -/

/-- C10: `Init_pair(pair, fg, bg)` makes the one native call
`init_pair(C.short(pair), C.short(fg), C.short(bg))`, each argument wrapped to
a signed 16-bit value, and hands back no failure whatever the native status.
The forwarded values are the inputs exactly when every input lies in
[-32768, 32767]; the pair indices 32768 and 65536 reach the native call as
-32768 and 0. -/
theorem Init_pair_contract {σ : Type} (L : Lib σ) (pair fg bg : Int) (w : World σ) :
    (Init_pair L pair fg bg w).2.trace =
      w.trace ++ [(Call.init_pair (C.short pair) (C.short fg) (C.short bg),
        (L.call (Call.init_pair (C.short pair) (C.short fg) (C.short bg)) w.native).1)] ∧
    C.short pair = (pair + 32768) % 65536 - 32768 ∧
    (runOp L (Op.Init_pair pair fg bg) w).1 = Ret.nothing ∧
    (runOp L (Op.Init_pair pair fg bg) w).1.err = none ∧
    ((C.short pair = pair ∧ C.short fg = fg ∧ C.short bg = bg) ↔
      ((-32768 ≤ pair ∧ pair ≤ 32767) ∧ (-32768 ≤ fg ∧ fg ≤ 32767) ∧
        (-32768 ≤ bg ∧ bg ≤ 32767))) ∧
    (C.short 32768 = -32768 ∧ C.short 65536 = 0 ∧
      (Init_pair scripted 32768 1 2 (World.init [ERR])).2.trace =
        [(Call.init_pair (-32768) 1 2, ERR)] ∧
      (Init_pair scripted 65536 1 2 (World.init [ERR])).2.trace =
        [(Call.init_pair 0 1 2, ERR)]) := by
  refine ⟨?_, ?_, ?_, ?_, ?_, by decide⟩
  · simp [Init_pair, invoke]
  · simp [C.short, toSigned]
  · simp [runOp]
  · simp [runOp, Ret.err]
  · rw [C_short_eq_self_iff, C_short_eq_self_iff, C_short_eq_self_iff]

/-! ## Addstr -/

theorem invoke_calls {σ : Type} (L : Lib σ) (c : Call) (w : World σ) :
    (invoke L c w).2.calls = w.calls ++ [c] := by
  simp [invoke, World.calls]

theorem Move_calls {σ : Type} (L : Lib σ) (win : WindowPtr) (y x : Int) (w : World σ) :
    (Window.Move L win y x w).2.calls = w.calls ++ [Call.wmove win (C.int y) (C.int x)] := by
  by_cases h : (L.call (Call.wmove win (C.int y) (C.int x)) w.native).1 = OK <;>
    simp [Window.Move, invoke, World.calls, h]

theorem Addstr_loop_calls {σ : Type} (L : Lib σ) (win : WindowPtr) (flags : Int)
    (s : GoString) (w : World σ) :
    (Window.Addstr.loop L win flags s w).calls =
      w.calls ++ s.map (fun b => Call.waddch win (C.chtype (b.val : Int) ||| C.chtype flags)) := by
  induction s generalizing w with
  | nil => simp [Window.Addstr.loop]
  | cons b rest ih =>
    simp only [Window.Addstr.loop, List.map_cons]
    rw [ih, invoke_calls]
    simp

theorem C_chtype_byte (b : Fin 256) : C.chtype (b.val : Int) = b.val := by
  have hb : (b.val : Int) < 4294967296 := by
    have := b.isLt
    omega
  have h0 : (0 : Int) ≤ (b.val : Int) := Int.ofNat_nonneg _
  simp only [C.chtype, toUnsigned]
  rw [show ((2 : Int) ^ 32) = 4294967296 by norm_num, Int.emod_eq_of_lt h0 hb]
  simp

/-- C3 (the code at fault): for every window, coordinates and string,
`Addstr(x, y, s, flags)` first calls `wmove(win, C.int(x), C.int(y))`, that is
row `x` and column `y`, because it passes `(x, y)` to `Move(y, x)`; whereas
`Addch(x, y, c, flags)` calls `mvwaddch(win, C.int(y), C.int(x), _)`, row `y`
and column `x`.  On the small terminal, `Addstr(1, 2, "A", 0)` writes the byte
in row 1, column 2 and `Addch(1, 2, 'A', 0)` writes it in row 2, column 1. -/
theorem Addstr_moves_transposed {σ : Type} (L : Lib σ) (win : WindowPtr) (x y : Int)
    (s : GoString) (c flags : Int) (v : Option (List Value)) (w : World σ) :
    (∃ rest, (Window.Addstr L win x y s flags v w).2.calls =
      w.calls ++ Call.wmove win (C.int x) (C.int y) :: rest) ∧
    (Window.Addch L win x y c flags w).2.calls =
      w.calls ++ [Call.mvwaddch win (C.int y) (C.int x) (C.chtype c ||| C.chtype flags)] ∧
    ((Window.Addstr term 7 1 2 [65] 0 none (World.init Term.start)).2.calls =
        [Call.wmove 7 1 2, Call.waddch 7 65] ∧
      (Window.Addstr term 7 1 2 [65] 0 none (World.init Term.start)).2.native.cells =
        [(1, 2, 65)] ∧
      (Window.Addch term 7 1 2 65 0 (World.init Term.start)).2.calls =
        [Call.mvwaddch 7 2 1 65] ∧
      (Window.Addch term 7 1 2 65 0 (World.init Term.start)).2.native.cells =
        [(2, 1, 65)]) := by
  refine ⟨?_, ?_, by decide⟩
  · refine ⟨List.map (fun b => Call.waddch win (C.chtype (b.val : Int) ||| C.chtype flags))
      (match v with
        | some args => L.Sprintf s args
        | none => s), ?_⟩
    simp only [Window.Addstr]
    rw [Addstr_loop_calls, Move_calls, List.append_assoc]
    rfl
  · by_cases h : (L.call (Call.mvwaddch win (C.int y) (C.int x)
        (C.chtype c ||| C.chtype flags)) w.native).1 = OK <;>
      simp [Window.Addch, invoke, World.calls, h]

/-- C4: for every string `s` passed to `Addstr` without format arguments, the
native calls `Addstr` makes are those of the move followed by exactly `len(s)`
calls of `waddch`, the i-th with the cell value `s[i]` OR `flags`, in
increasing order of `i`, with `s` taken as it is (`fmt.Sprintf` plays no part);
this holds for every native library, so whatever statuses the move and the
writes answer, and `Addstr` hands back no failure. -/
theorem Addstr_writes_every_byte {σ : Type} (L : Lib σ) (win : WindowPtr) (x y : Int)
    (s : GoString) (flags : Int) (w : World σ) :
    (Window.Addstr L win x y s flags none w).2.calls =
      (Window.Move L win x y w).2.calls ++
        s.map (fun b => Call.waddch win (b.val ||| C.chtype flags)) ∧
    (Window.Move L win x y w).2.calls.length = w.calls.length + 1 ∧
    (Window.Addstr L win x y s flags none w).2.calls.length = w.calls.length + 1 + s.length ∧
    (runOp L (Op.Addstr win x y s flags none) w).1 = Ret.nothing ∧
    (runOp L (Op.Addstr win x y s flags none) w).1.err = none ∧
    ((Window.Addstr scripted 7 0 0 [37, 100, 65] 256 none (World.init [ERR, ERR, ERR, ERR])).2.trace =
      [(Call.wmove 7 0 0, ERR), (Call.waddch 7 293, ERR), (Call.waddch 7 356, ERR),
        (Call.waddch 7 321, ERR)]) := by
  have hcalls : (Window.Addstr L win x y s flags none w).2.calls =
      (Window.Move L win x y w).2.calls ++
        s.map (fun b => Call.waddch win (b.val ||| C.chtype flags)) := by
    simp only [Window.Addstr]
    rw [Addstr_loop_calls]
    simp only [C_chtype_byte]
  refine ⟨hcalls, ?_, ?_, ?_, ?_, by decide⟩
  · rw [Move_calls]; simp
  · rw [hcalls, Move_calls]; simp; omega
  · simp [runOp]
  · simp [runOp, Ret.err]

/-! ## The status-checked passthrough operations -/

/-- C7: for each status-checked passthrough operation (Delwin, Move, Resize,
Keypad, Refresh, Redrawln, Redraw, Clear, Erase, Clrtobot, Clrtoeol, Attron,
Attroff, Noecho, DoUpdate, Cbreak, Nocbreak, Raw, Noraw, Endwin), every native
library and every state, the operation makes exactly one native call `c`
(the log of native calls grows by that one entry and the native state is the
one that call leaves), it returns nil if and only if the status of that call
equals `OK`, and otherwise it returns a `CursesError` whose `Error()` string is
not empty.  In particular `Resize` returns a failure value whenever the native
`wresize` answers a status other than `OK`. -/
theorem passthrough_contract {σ : Type} (L : Lib σ) (op : Op) (w : World σ)
    (hop : op.name.isPassthrough = true) :
    (∃ c : Call,
      (runOp L op w).2.trace = w.trace ++ [(c, (L.call c w.native).1)] ∧
      (runOp L op w).2.native = (L.call c w.native).2 ∧
      (∃ e, (runOp L op w).1 = Ret.error e) ∧
      ((runOp L op w).1.err = none ↔ (L.call c w.native).1 = OK) ∧
      (∀ e, (runOp L op w).1.err = some e → e.Error ≠ "")) ∧
    (∀ win rows cols,
      (L.call (Call.wresize win (C.int rows) (C.int cols)) w.native).1 ≠ OK →
      (Window.Resize L win rows cols w).2.trace =
        w.trace ++ [(Call.wresize win (C.int rows) (C.int cols),
          (L.call (Call.wresize win (C.int rows) (C.int cols)) w.native).1)] ∧
      (Window.Resize L win rows cols w).1 = some ⟨"Resize failed"⟩) := by
  constructor
  · cases op <;> simp [Op.name, OpName.isPassthrough] at hop
    case Delwin win =>
      refine ⟨Call.delwin win, ?_⟩
      by_cases h : (L.call (Call.delwin win) w.native).1 = OK <;>
        simp [runOp, Window.Delwin, invoke, Ret.err, CursesError.Error, h]
    case Noecho =>
      refine ⟨Call.noecho, ?_⟩
      by_cases h : (L.call Call.noecho w.native).1 = OK <;>
        simp [runOp, Noecho, invoke, Ret.err, CursesError.Error, h]
    case DoUpdate =>
      refine ⟨Call.doupdate, ?_⟩
      by_cases h : (L.call Call.doupdate w.native).1 = OK <;>
        simp [runOp, DoUpdate, invoke, Ret.err, CursesError.Error, h]
    case Nocbreak =>
      refine ⟨Call.nocbreak, ?_⟩
      by_cases h : (L.call Call.nocbreak w.native).1 = OK <;>
        simp [runOp, Nocbreak, invoke, Ret.err, CursesError.Error, h]
    case Cbreak =>
      refine ⟨Call.cbreak, ?_⟩
      by_cases h : (L.call Call.cbreak w.native).1 = OK <;>
        simp [runOp, Cbreak, invoke, Ret.err, CursesError.Error, h]
    case Raw =>
      refine ⟨Call.raw, ?_⟩
      by_cases h : (L.call Call.raw w.native).1 = OK <;>
        simp [runOp, Raw, invoke, Ret.err, CursesError.Error, h]
    case Noraw =>
      refine ⟨Call.noraw, ?_⟩
      by_cases h : (L.call Call.noraw w.native).1 = OK <;>
        simp [runOp, Noraw, invoke, Ret.err, CursesError.Error, h]
    case Endwin =>
      refine ⟨Call.endwin, ?_⟩
      by_cases h : (L.call Call.endwin w.native).1 = OK <;>
        simp [runOp, Endwin, invoke, Ret.err, CursesError.Error, h]
    case Move win y x =>
      refine ⟨Call.wmove win (C.int y) (C.int x), ?_⟩
      by_cases h : (L.call (Call.wmove win (C.int y) (C.int x)) w.native).1 = OK <;>
        simp [runOp, Window.Move, invoke, Ret.err, CursesError.Error, h]
    case Resize win rows cols =>
      refine ⟨Call.wresize win (C.int rows) (C.int cols), ?_⟩
      by_cases h : (L.call (Call.wresize win (C.int rows) (C.int cols)) w.native).1 = OK <;>
        simp [runOp, Window.Resize, invoke, Ret.err, CursesError.Error, h]
    case Keypad win tf =>
      refine ⟨Call.keypad win (C.int (if tf then 1 else 0)), ?_⟩
      by_cases h : (L.call (Call.keypad win (C.int (if tf then 1 else 0))) w.native).1 = OK <;>
        simp [runOp, Window.Keypad, invoke, Ret.err, CursesError.Error, h]
    case Refresh win =>
      refine ⟨Call.wrefresh win, ?_⟩
      by_cases h : (L.call (Call.wrefresh win) w.native).1 = OK <;>
        simp [runOp, Window.Refresh, invoke, Ret.err, CursesError.Error, h]
    case Redrawln win b n =>
      refine ⟨Call.wredrawln win (C.int b) (C.int n), ?_⟩
      by_cases h : (L.call (Call.wredrawln win (C.int b) (C.int n)) w.native).1 = OK <;>
        simp [runOp, Window.Redrawln, invoke, Ret.err, CursesError.Error, h]
    case Redraw win =>
      refine ⟨Call.redrawwin win, ?_⟩
      by_cases h : (L.call (Call.redrawwin win) w.native).1 = OK <;>
        simp [runOp, Window.Redraw, invoke, Ret.err, CursesError.Error, h]
    case Clear win =>
      refine ⟨Call.wclear win, ?_⟩
      by_cases h : (L.call (Call.wclear win) w.native).1 = OK <;>
        simp [runOp, Window.Clear, invoke, Ret.err, CursesError.Error, h]
    case Erase win =>
      refine ⟨Call.werase win, ?_⟩
      by_cases h : (L.call (Call.werase win) w.native).1 = OK <;>
        simp [runOp, Window.Erase, invoke, Ret.err, CursesError.Error, h]
    case Clrtobot win =>
      refine ⟨Call.wclrtobot win, ?_⟩
      by_cases h : (L.call (Call.wclrtobot win) w.native).1 = OK <;>
        simp [runOp, Window.Clrtobot, invoke, Ret.err, CursesError.Error, h]
    case Clrtoeol win =>
      refine ⟨Call.wclrtoeol win, ?_⟩
      by_cases h : (L.call (Call.wclrtoeol win) w.native).1 = OK <;>
        simp [runOp, Window.Clrtoeol, invoke, Ret.err, CursesError.Error, h]
    case Attron win flags =>
      refine ⟨Call.wattron win (C.int flags), ?_⟩
      by_cases h : (L.call (Call.wattron win (C.int flags)) w.native).1 = OK <;>
        simp [runOp, Window.Attron, invoke, Ret.err, CursesError.Error, h]
    case Attroff win flags =>
      refine ⟨Call.wattroff win (C.int flags), ?_⟩
      by_cases h : (L.call (Call.wattroff win (C.int flags)) w.native).1 = OK <;>
        simp [runOp, Window.Attroff, invoke, Ret.err, CursesError.Error, h]
  · intro win rows cols h
    simp [Window.Resize, invoke, h]

/-- Witness for C7 on the scripted library: `Resize` to the negative dimensions
(-1, -1), which the native call rejects with `ERR`, is a passthrough operation;
it makes the one call `wresize(5, -1, -1)` and returns "Resize failed". -/
theorem passthrough_contract_witness :
    (Op.Resize 5 (-1) (-1)).name.isPassthrough = true ∧
    (Window.Resize scripted 5 (-1) (-1) (World.init [ERR])).2.trace =
      [] ++ [(Call.wresize 5 (C.int (-1)) (C.int (-1)), ERR)] ∧
    (Window.Resize scripted 5 (-1) (-1) (World.init [ERR])).1 = some ⟨"Resize failed"⟩ ∧
    C.int (-1) = -1 :=
  ⟨rfl,
   ((passthrough_contract scripted (Op.Resize 5 (-1) (-1)) (World.init [ERR]) rfl).2
      5 (-1) (-1) (by decide)).1,
   ((passthrough_contract scripted (Op.Resize 5 (-1) (-1)) (World.init [ERR]) rfl).2
      5 (-1) (-1) (by decide)).2,
   by decide⟩

/-! ## Initscr and the standard window -/

theorem lastInitscr_append (t extra : List (Call × Int))
    (h : ∀ cr ∈ extra, cr.1 ≠ Call.initscr) :
    lastInitscr (t ++ extra) = lastInitscr t := by
  unfold lastInitscr
  rw [List.foldl_append]
  generalize List.foldl (fun acc cr => if cr.1 = Call.initscr then cr.2 else acc) nil t = a
  induction extra generalizing a with
  | nil => rfl
  | cons cr rest ih =>
    have hcr : cr.1 ≠ Call.initscr := h cr (List.mem_cons_self _ _)
    simp only [List.foldl_cons, hcr, if_false]
    exact ih (fun x hx => h x (List.mem_cons_of_mem _ hx)) a

theorem lastInitscr_snoc (t : List (Call × Int)) (p : WindowPtr) :
    lastInitscr (t ++ [(Call.initscr, p)]) = p := by
  simp [lastInitscr, List.foldl_append]

theorem lastInitscr_spec (t : List (Call × Int)) :
    lastInitscr t = nil ∨
    ∃ pre post p, t = pre ++ (Call.initscr, p) :: post ∧
      (∀ cr ∈ post, cr.1 ≠ Call.initscr) ∧ lastInitscr t = p := by
  induction t using List.reverseRecOn with
  | nil => left; rfl
  | append_singleton t cr ih =>
    by_cases hcr : cr.1 = Call.initscr
    · right
      refine ⟨t, [], cr.2, ?_, by simp, ?_⟩
      · rw [← hcr]
      · have : cr = (Call.initscr, cr.2) := by rw [← hcr]
        rw [this]
        exact lastInitscr_snoc t cr.2
    · have hk : lastInitscr (t ++ [cr]) = lastInitscr t :=
        lastInitscr_append t [cr] (by simpa using hcr)
      rcases ih with h0 | ⟨pre, post, p, ht, hpost, hp⟩
      · left; rw [hk, h0]
      · right
        refine ⟨pre, post ++ [cr], p, ?_, ?_, ?_⟩
        · rw [ht]; simp
        · intro x hx
          rcases List.mem_append.1 hx with hx | hx
          · exact hpost x hx
          · have : x = cr := by simpa using hx
            rw [this]; exact hcr
        · rw [hk, hp]

theorem snd_ite {α β : Type} (c : Prop) [Decidable c] (a b : α) (W : β) :
    (if c then (a, W) else (b, W)).2 = W := by
  split <;> rfl

theorem Addstr_loop_frame {σ : Type} (L : Lib σ) (win : WindowPtr) (flags : Int)
    (s : GoString) (w : World σ) :
    (Window.Addstr.loop L win flags s w).Stdwin = w.Stdwin ∧
    ∃ extra, (Window.Addstr.loop L win flags s w).trace = w.trace ++ extra ∧
      ∀ cr ∈ extra, cr.1 ≠ Call.initscr := by
  induction s generalizing w with
  | nil => exact ⟨rfl, [], by simp [Window.Addstr.loop], by simp⟩
  | cons b rest ih =>
    simp only [Window.Addstr.loop]
    obtain ⟨h1, extra, h2, h3⟩ :=
      ih (invoke L (Call.waddch win (C.chtype (b.val : Int) ||| C.chtype flags)) w).2
    refine ⟨by rw [h1]; rfl,
      (Call.waddch win (C.chtype (b.val : Int) ||| C.chtype flags),
        (L.call (Call.waddch win (C.chtype (b.val : Int) ||| C.chtype flags)) w.native).1)
        :: extra, ?_, ?_⟩
    · rw [h2]; simp [invoke]
    · intro cr hcr
      rcases List.mem_cons.1 hcr with hcr | hcr
      · rw [hcr]; simp
      · exact h3 cr hcr

theorem runOp_frame {σ : Type} (L : Lib σ) (op : Op) (w : World σ)
    (hop : op.name ≠ OpName.Initscr) :
    (runOp L op w).2.Stdwin = w.Stdwin ∧
    ∃ extra, (runOp L op w).2.trace = w.trace ++ extra ∧
      ∀ cr ∈ extra, cr.1 ≠ Call.initscr := by
  cases op
  case Initscr => exact absurd rfl hop
  case Addstr win x y str flags v =>
    clear hop
    simp only [runOp, Window.Addstr]
    obtain ⟨h1, extra, h2, h3⟩ := Addstr_loop_frame L win flags
      (match v with
        | some args => L.Sprintf str args
        | none => str) (Window.Move L win x y w).2
    have hm : (Window.Move L win x y w).2.Stdwin = w.Stdwin ∧
        (Window.Move L win x y w).2.trace = w.trace ++
          [(Call.wmove win (C.int x) (C.int y),
            (L.call (Call.wmove win (C.int x) (C.int y)) w.native).1)] := by
      by_cases h : (L.call (Call.wmove win (C.int x) (C.int y)) w.native).1 = OK <;>
        simp [Window.Move, invoke, h]
    refine ⟨by rw [h1, hm.1],
      (Call.wmove win (C.int x) (C.int y),
        (L.call (Call.wmove win (C.int x) (C.int y)) w.native).1) :: extra, ?_, ?_⟩
    · rw [h2, hm.2]; simp
    · intro cr hcr
      rcases List.mem_cons.1 hcr with hcr | hcr
      · rw [hcr]; simp
      · exact h3 cr hcr
  case Start_color =>
    by_cases h1 : (L.call Call.has_colors w.native).1 = 0
    · exact ⟨by simp [runOp, Start_color, invoke, h1],
        [(Call.has_colors, (L.call Call.has_colors w.native).1)],
        by simp [runOp, Start_color, invoke, h1], by simp⟩
    · refine ⟨?_, [(Call.has_colors, (L.call Call.has_colors w.native).1),
          (Call.start_color, (L.call Call.start_color (L.call Call.has_colors w.native).2).1)],
          ?_, by simp⟩
      · by_cases h2 : (L.call Call.start_color (L.call Call.has_colors w.native).2).1 = OK <;>
          simp [runOp, Start_color, invoke, h1, h2]
      · by_cases h2 : (L.call Call.start_color (L.call Call.has_colors w.native).2).1 = OK <;>
          simp [runOp, Start_color, invoke, h1, h2]
  all_goals
    simp only [runOp, Newwin, Window.Delwin, Window.Subwin, Window.Derwin, Init_pair,
      Color_pair, Noecho, DoUpdate, Echo, Curs_set, Nocbreak, Cbreak, Raw, Noraw, Endwin,
      Window.Getch, Window.Addch, Window.Move, Window.Resize, Window.Keypad,
      Window.Refresh, Window.Redrawln, Window.Redraw, Window.Clear, Window.Erase,
      Window.Clrtobot, Window.Clrtoeol, Window.Box, Window.Background, Window.Attron,
      Window.Attroff, snd_ite]
    exact ⟨rfl, [_], rfl, by simp⟩

theorem Initscr_world {σ : Type} (L : Lib σ) (w : World σ) :
    (Initscr L w).2.Stdwin = (L.call Call.initscr w.native).1 ∧
    (Initscr L w).2.trace =
      w.trace ++ [(Call.initscr, (L.call Call.initscr w.native).1)] := by
  by_cases h : (L.call Call.initscr w.native).1 = nil <;> simp [Initscr, invoke, h]

theorem runOp_inv {σ : Type} (L : Lib σ) (op : Op) (w : World σ)
    (h : w.Stdwin = lastInitscr w.trace) :
    (runOp L op w).2.Stdwin = lastInitscr (runOp L op w).2.trace := by
  by_cases hop : op.name = OpName.Initscr
  · cases op <;> simp [Op.name] at hop
    simp only [runOp]
    rw [(Initscr_world L w).1, (Initscr_world L w).2, lastInitscr_snoc]
  · obtain ⟨h1, extra, h2, h3⟩ := runOp_frame L op w hop
    rw [h1, h2, lastInitscr_append _ _ h3, h]

theorem runAll_inv {σ : Type} (L : Lib σ) (ops : List Op) (w : World σ)
    (h : w.Stdwin = lastInitscr w.trace) :
    (runAll L ops w).Stdwin = lastInitscr (runAll L ops w).trace := by
  induction ops generalizing w with
  | nil => exact h
  | cons op rest ih => exact ih _ (runOp_inv L op w h)

/-- C9: for every native library and state, `Initscr` stores the result `h` of
the native `initscr` call in `Stdwin`; when `h` is null it returns
(nil, "Initscr failed") and `Stdwin` is nil, otherwise it returns (`h`, nil) and
`Stdwin` is the returned handle.  No other exported operation changes `Stdwin`
or calls the native `initscr`.  Hence, after any sequence of exported operations
run from the freshly loaded package, `Stdwin` is the result of the most recent
`Initscr` call (nil when there has been none): it is nil or that handle. -/
theorem Stdwin_invariant {σ : Type} (L : Lib σ) (w : World σ) :
    ((Initscr L w).2.Stdwin = (L.call Call.initscr w.native).1 ∧
      (Initscr L w).2.trace =
        w.trace ++ [(Call.initscr, (L.call Call.initscr w.native).1)]) ∧
    ((L.call Call.initscr w.native).1 = nil →
      (Initscr L w).1 = (nil, some ⟨"Initscr failed"⟩) ∧ (Initscr L w).2.Stdwin = nil) ∧
    ((L.call Call.initscr w.native).1 ≠ nil →
      (Initscr L w).1 = ((L.call Call.initscr w.native).1, none) ∧
      (Initscr L w).2.Stdwin = (Initscr L w).1.1) ∧
    (∀ op : Op, op.name ≠ OpName.Initscr →
      (runOp L op w).2.Stdwin = w.Stdwin ∧
      ∀ cr ∈ (runOp L op w).2.trace.drop w.trace.length, cr.1 ≠ Call.initscr) ∧
    (∀ (ops : List Op) (s : σ),
      (runAll L ops (World.init s)).Stdwin =
        lastInitscr (runAll L ops (World.init s)).trace ∧
      ((runAll L ops (World.init s)).Stdwin = nil ∨
        ∃ pre post p,
          (runAll L ops (World.init s)).trace = pre ++ (Call.initscr, p) :: post ∧
          (∀ cr ∈ post, cr.1 ≠ Call.initscr) ∧
          (runAll L ops (World.init s)).Stdwin = p)) := by
  refine ⟨Initscr_world L w, ?_, ?_, ?_, ?_⟩
  · intro h
    simp [Initscr, invoke, h]
  · intro h
    simp [Initscr, invoke, h]
  · intro op hop
    obtain ⟨h1, extra, h2, h3⟩ := runOp_frame L op w hop
    refine ⟨h1, ?_⟩
    rw [h2, List.drop_left]
    exact h3
  · intro ops s
    have hinv := runAll_inv L ops (World.init s) rfl
    refine ⟨hinv, ?_⟩
    rcases lastInitscr_spec (runAll L ops (World.init s)).trace with h0 | ⟨pre, post, p, h1, h2, h3⟩
    · left; rw [hinv, h0]
    · right; exact ⟨pre, post, p, h1, h2, by rw [hinv, h3]⟩

/-- Witness for C9 on the scripted library: a first `Initscr` that yields the
handle 7 sets `Stdwin` to 7; `Newwin`, `Delwin` and `Endwin` leave it at 7; a
second `Initscr` that yields the null handle returns the failure and resets
`Stdwin` to nil. -/
theorem Stdwin_invariant_witness :
    ((Initscr scripted (World.init [7])).1 = (7, none) ∧
      (Initscr scripted (World.init [7])).2.Stdwin = (Initscr scripted (World.init [7])).1.1) ∧
    ((Initscr scripted (World.init [0])).1 = (nil, some ⟨"Initscr failed"⟩) ∧
      (Initscr scripted (World.init [0])).2.Stdwin = nil) ∧
    (runOp scripted (Op.Newwin 3 4 0 0) (Initscr scripted (World.init [7, 9])).2).2.Stdwin = 7 ∧
    (runAll scripted [Op.Initscr, Op.Newwin 3 4 0 0, Op.Delwin 9, Op.Endwin]
      (World.init [7, 9, 0, 0])).Stdwin = 7 ∧
    (runAll scripted [Op.Initscr, Op.Newwin 3 4 0 0, Op.Delwin 9, Op.Endwin, Op.Initscr]
      (World.init [7, 9, 0, 0, 0])).Stdwin = nil :=
  ⟨(Stdwin_invariant scripted (World.init [7])).2.2.1 (by decide),
   (Stdwin_invariant scripted (World.init [0])).2.1 rfl,
   ((Stdwin_invariant scripted (Initscr scripted (World.init [7, 9])).2).2.2.2.1
      (Op.Newwin 3 4 0 0) (by decide)).1.trans (by decide),
   ((Stdwin_invariant scripted (World.init [7])).2.2.2.2
      [Op.Initscr, Op.Newwin 3 4 0 0, Op.Delwin 9, Op.Endwin] [7, 9, 0, 0]).1.trans (by decide),
   ((Stdwin_invariant scripted (World.init [7])).2.2.2.2
      [Op.Initscr, Op.Newwin 3 4 0 0, Op.Delwin 9, Op.Endwin, Op.Initscr]
        [7, 9, 0, 0, 0]).1.trans (by decide)⟩

/-! ## Failure messages -/

theorem err_mem_failureMessages {σ : Type} (L : Lib σ) (op : Op) (w : World σ)
    (e : CursesError) (h : (runOp L op w).1.err = some e) :
    e.message ∈ failureMessages op.name := by
  cases op <;>
    simp only [runOp, Ret.err, Initscr, Newwin, Window.Delwin, Window.Subwin, Window.Derwin,
      Start_color, Noecho, DoUpdate, Echo, Curs_set, Nocbreak, Cbreak, Raw, Noraw, Endwin,
      Window.Addch, Window.Move, Window.Resize, Window.Keypad, Window.Refresh,
      Window.Redrawln, Window.Redraw, Window.Clear, Window.Erase, Window.Clrtobot,
      Window.Clrtoeol, Window.Attron, Window.Attroff] at h <;>
    first
      | (split_ifs at h <;> simp at h <;> subst h <;> simp [Op.name, failureMessages])
      | simp at h

theorem failureMessages_single (n : OpName) (hn : n ≠ OpName.Start_color) (x y : String)
    (hx : x ∈ failureMessages n) (hy : y ∈ failureMessages n) : x = y := by
  cases n <;> simp [failureMessages] at hx hy hn <;> rw [hx, hy]

theorem failureMessages_distinct (n m : OpName) :
    n ≠ m → n ≠ OpName.Attroff → m ≠ OpName.Attroff →
    ¬ (n.createsWindow = true ∧ m.createsWindow = true) →
    ∀ x ∈ failureMessages n, ∀ y ∈ failureMessages m, x ≠ y := by
  intro hnm hn hm hc x hx y hy hxy
  subst hxy
  cases n <;>
    simp only [failureMessages, List.mem_singleton, List.mem_cons, List.not_mem_nil,
      or_false] at hx <;>
    (try rcases hx with hx | hx) <;> (try subst hx) <;>
    cases m <;> simp [failureMessages, OpName.createsWindow] at hy hnm hn hm hc

theorem Start_color_message {σ : Type} (L : Lib σ) (w : World σ) (e : CursesError)
    (h : (Start_color L w).1 = some e) :
    e.message =
      if (L.call Call.has_colors w.native).1 = 0 then "terminal does not support color"
      else "Start_color failed" := by
  by_cases h1 : (L.call Call.has_colors w.native).1 = 0
  · simp [Start_color, invoke, h1] at h
    subst h
    simp [h1]
  · by_cases h2 : (L.call Call.start_color (L.call Call.has_colors w.native).2).1 = OK
    · simp [Start_color, invoke, h1, h2] at h
    · simp [Start_color, invoke, h1, h2] at h
      subst h
      simp [h1]

/-- C5 (the claim as stated fails): two different operations, `Newwin` and
`Subwin`, fail with the same message "Failed to create window"; `Start_color`
fails with two different messages depending on the native results; and
`Attroff` fails with "Attron failed", the message of `Attron`. -/
theorem failure_messages_clash :
    (OpName.Newwin ≠ OpName.Subwin ∧
      (Newwin scripted 1 1 0 0 (World.init [0])).1.2 = some ⟨"Failed to create window"⟩ ∧
      (Window.Subwin scripted 5 1 1 0 0 (World.init [0])).1.2 =
        some ⟨"Failed to create window"⟩) ∧
    ((Start_color scripted (World.init [0])).1 = some ⟨"terminal does not support color"⟩ ∧
      (Start_color scripted (World.init [1, ERR])).1 = some ⟨"Start_color failed"⟩) ∧
    ((Window.Attron scripted 5 1 (World.init [ERR])).1 = some ⟨"Attron failed"⟩ ∧
      (Window.Attroff scripted 5 1 (World.init [ERR])).1 = some ⟨"Attron failed"⟩) := by
  decide

/-- C5 (amended): every failure value carries a static message.  Whatever the
native library, the state and the arguments, the message of a failed call is
one of the literals in the body of its operation; two failed calls of the same
operation carry the same message, except that `Start_color` has two, one for
`has_colors` answering 0 and one for a failed `start_color`; and the messages
of two different operations, `Attroff` aside, are different strings, except
that `Newwin`, `Subwin` and `Derwin` share "Failed to create window".  In
particular the message of `Echo` differs from that of `Noecho`. -/
theorem failure_message_static {σ τ : Type} (L : Lib σ) (L' : Lib τ) (a b : Op)
    (w : World σ) (w' : World τ) (ea eb : CursesError)
    (ha : (runOp L a w).1.err = some ea) (hb : (runOp L' b w').1.err = some eb) :
    ea.message ∈ failureMessages a.name ∧
    (a.name = b.name → a.name ≠ OpName.Start_color → ea = eb) ∧
    (a.name = OpName.Start_color → b.name = OpName.Start_color →
      (ea.message = if (L.call Call.has_colors w.native).1 = 0
        then "terminal does not support color" else "Start_color failed") ∧
      (((L.call Call.has_colors w.native).1 = 0 ↔ (L'.call Call.has_colors w'.native).1 = 0) →
        ea = eb)) ∧
    (a.name ≠ b.name → a.name ≠ OpName.Attroff → b.name ≠ OpName.Attroff →
      ¬ (a.name.createsWindow = true ∧ b.name.createsWindow = true) →
      ea.message ≠ eb.message) ∧
    (a.name = OpName.Echo → b.name = OpName.Noecho → ea.message ≠ eb.message) := by
  have hma := err_mem_failureMessages L a w ea ha
  have hmb := err_mem_failureMessages L' b w' eb hb
  have hext : ∀ e1 e2 : CursesError, e1.message = e2.message → e1 = e2 := by
    intro e1 e2 h
    cases e1; cases e2; simpa using h
  refine ⟨hma, ?_, ?_, ?_, ?_⟩
  · intro hab hsc
    apply hext
    rw [← hab] at hmb
    exact failureMessages_single a.name hsc _ _ hma hmb
  · intro hsa hsb
    have hA : a = Op.Start_color := by cases a <;> simp [Op.name] at hsa; rfl
    have hB : b = Op.Start_color := by cases b <;> simp [Op.name] at hsb; rfl
    subst hA; subst hB
    have h1 := Start_color_message L w ea (by simpa [runOp, Ret.err] using ha)
    have h2 := Start_color_message L' w' eb (by simpa [runOp, Ret.err] using hb)
    refine ⟨h1, ?_⟩
    intro hiff
    apply hext
    rw [h1, h2]
    by_cases hc : (L.call Call.has_colors w.native).1 = 0
    · rw [if_pos hc, if_pos (hiff.1 hc)]
    · rw [if_neg hc, if_neg (fun h => hc (hiff.2 h))]
  · intro hab hna hnb hcw
    exact failureMessages_distinct a.name b.name hab hna hnb hcw _ hma _ hmb
  · intro hEa hNb
    refine failureMessages_distinct a.name b.name ?_ ?_ ?_ ?_ _ hma _ hmb
    · rw [hEa, hNb]; decide
    · rw [hEa]; decide
    · rw [hNb]; decide
    · rw [hEa, hNb]; decide

/-- Witness for C5 (amended) on the scripted library: `Echo` and `Noecho`, each
failing on a native `ERR`, carry the different messages "Echo failed" and
"Noecho failed". -/
theorem failure_message_static_witness :
    (runOp scripted Op.Echo (World.init [ERR])).1.err = some ⟨"Echo failed"⟩ ∧
    (runOp scripted Op.Noecho (World.init [ERR])).1.err = some ⟨"Noecho failed"⟩ ∧
    (⟨"Echo failed"⟩ : CursesError).message ≠ (⟨"Noecho failed"⟩ : CursesError).message :=
  ⟨by decide, by decide,
   (failure_message_static scripted scripted Op.Echo Op.Noecho (World.init [ERR])
      (World.init [ERR]) ⟨"Echo failed"⟩ ⟨"Noecho failed"⟩ (by decide) (by decide)).2.2.2.2
      rfl rfl⟩

end curses
